import Mathlib

/-!
Verification of the slide background-and-layout engine of
`bot/services/presentation_builder.py` (with the template-registry lookups
declared in `bot/services/ai_text_presentation_generator.py`).

The Python module is shallowly embedded: relative rectangles become exact
rationals, Python strings become Lean strings (with `str.strip`, `str.lstrip`
and `int(_, 16)` modelled on the character list), the raster image and its
per-region luminance statistics become an abstract `ImageModel`, and the
build becomes a pure function into `Except BuildError (List RenderPlan)`.
-/

namespace PresentationBuilder

/-- A relative rectangle `(left, top, width, height)`, the 4-tuples of the
Python module, with exact rational coordinates. -/
structure Rect where
  left : ℚ
  top : ℚ
  width : ℚ
  height : ℚ
  deriving DecidableEq

/-- `TITLE_ZONE = (0.08, 0.08, 0.84, 0.16)`. -/
def TITLE_ZONE : Rect := ⟨8/100, 8/100, 84/100, 16/100⟩

/-- `FIRST_SLIDE_TITLE_ZONE = (0.08, 0.03, 0.84, 0.12)`. -/
def FIRST_SLIDE_TITLE_ZONE : Rect := ⟨8/100, 3/100, 84/100, 12/100⟩

/-- `BODY_ZONE = (0.10, 0.26, 0.80, 0.58)`. -/
def BODY_ZONE : Rect := ⟨10/100, 26/100, 80/100, 58/100⟩

/-- `BODY_ZONE_NO_TITLE = (0.08, 0.10, 0.84, 0.78)`. -/
def BODY_ZONE_NO_TITLE : Rect := ⟨8/100, 10/100, 84/100, 78/100⟩

/-- `TITLE_ZONE_CANDIDATES`. -/
def titleZoneCandidates : List Rect :=
  [⟨7/100, 6/100, 86/100, 18/100⟩,
   ⟨8/100, 8/100, 84/100, 16/100⟩,
   ⟨10/100, 9/100, 80/100, 16/100⟩,
   ⟨12/100, 10/100, 76/100, 16/100⟩,
   ⟨10/100, 14/100, 80/100, 16/100⟩]

/-- `BODY_ZONE_CANDIDATES`. -/
def bodyZoneCandidates : List Rect :=
  [⟨8/100, 24/100, 84/100, 60/100⟩,
   ⟨10/100, 26/100, 80/100, 58/100⟩,
   ⟨10/100, 30/100, 80/100, 54/100⟩,
   ⟨12/100, 28/100, 76/100, 56/100⟩,
   ⟨12/100, 34/100, 76/100, 50/100⟩,
   ⟨8/100, 32/100, 84/100, 52/100⟩]

/-- A rectangle lies fully inside the unit square. -/
def inUnitSquare (r : Rect) : Prop :=
  0 ≤ r.left ∧ 0 ≤ r.top ∧ r.left + r.width ≤ 1 ∧ r.top + r.height ≤ 1

instance (r : Rect) : Decidable (inUnitSquare r) := by
  unfold inUnitSquare; infer_instance

/-! ### Python string helpers

Python `str` values are handled through their character lists; `str.strip()`
and `int(s, 16)` are modelled exactly for the characters that occur in color
strings. -/

/-- The ASCII whitespace characters recognised by Python `str.strip()` /
`str.isspace()`. -/
def pyIsSpace (c : Char) : Bool :=
  c = ' ' || c = '\t' || c = '\n' || c = '\x0d' || c = '\x0b' || c = '\x0c'

/-- Python `s.strip()` on the character list: drop whitespace from both ends. -/
def pyStrip (cs : List Char) : List Char :=
  ((cs.dropWhile pyIsSpace).reverse.dropWhile pyIsSpace).reverse

/-- Python `s.lstrip("#")`: drop every leading hash. -/
def pyLstripHash (cs : List Char) : List Char :=
  cs.dropWhile (fun c => c = '#')

/-- The value of one hexadecimal digit, if the character is one. -/
def hexDigitVal? (c : Char) : Option ℕ :=
  if '0' ≤ c ∧ c ≤ '9' then some (c.toNat - '0'.toNat)
  else if 'a' ≤ c ∧ c ≤ 'f' then some (c.toNat - 'a'.toNat + 10)
  else if 'A' ≤ c ∧ c ≤ 'F' then some (c.toNat - 'A'.toNat + 10)
  else none

/-- Python `int(s, 16)` for a two-character slice `s = [a, b]`: Python accepts
optional surrounding whitespace and an optional sign before the digits, so a
pair parses when both characters are hex digits, or when one is a hex digit
and the other a flanking whitespace, or when the first is a sign. Returns
`none` where Python raises `ValueError`. -/
def pyIntHex2 (a b : Char) : Option ℤ :=
  match hexDigitVal? a, hexDigitVal? b with
  | some x, some y => some (16 * x + y)
  | some x, none => if pyIsSpace b then some x else none
  | none, some y =>
    if pyIsSpace a then some y
    else if a = '+' then some y
    else if a = '-' then some (-(y : ℤ))
    else none
  | none, none => none

/-! ### `_parse_hex_color` and `_hex_to_rgb` -/

/-- `_parse_hex_color` composed with the `RGBColor` constructor of python-pptx
(which additionally rejects components outside `0..255`): strip whitespace and
leading hashes, require exactly six characters, parse the three two-character
slices with Python `int(_, 16)`. `none` models the raised `ValueError`. -/
def parseHexColor (s : String) : Option (ℤ × ℤ × ℤ) :=
  let value := pyLstripHash (pyStrip s.data)
  match value with
  | [a, b, c, d, e, f] =>
    match pyIntHex2 a b, pyIntHex2 c d, pyIntHex2 e f with
    | some r, some g, some bl =>
      if 0 ≤ r ∧ r ≤ 255 ∧ 0 ≤ g ∧ g ≤ 255 ∧ 0 ≤ bl ∧ bl ≤ 255 then some (r, g, bl)
      else none
    | _, _, _ => none
  | _ => none

/-- `_hex_to_rgb`: same reduction, but a value that is not six characters long
yields `(0, 0, 0)` instead of an error; `none` models the `ValueError` raised
by `int(_, 16)` on a bad slice (caught by the caller's `try`). -/
def hexToRgb (s : String) : Option (ℤ × ℤ × ℤ) :=
  match pyLstripHash (pyStrip s.data) with
  | [a, b, c, d, e, f] =>
    match pyIntHex2 a b, pyIntHex2 c d, pyIntHex2 e f with
    | some r, some g, some bl => some (r, g, bl)
    | _, _, _ => none
  | _ => some (0, 0, 0)

/-! ### `_estimate_body_font_size` and `_estimate_title_font_size` -/

/-- A `SlideContent` record of `ai_text_presentation_generator.py`. -/
structure SlideContent where
  title : String
  bullets : List String
  deriving DecidableEq

/-- `max((len(item) for item in slide.bullets), default=0)`. -/
def maxBulletLen (slide : SlideContent) : ℕ :=
  (slide.bullets.map String.length).foldr max 0

/-- `sum(len(item) for item in slide.bullets)`. -/
def totalBulletLen (slide : SlideContent) : ℕ :=
  (slide.bullets.map String.length).foldr (· + ·) 0

/-- `len(slide.bullets)`. -/
def bulletCount (slide : SlideContent) : ℕ :=
  slide.bullets.length

/-- `_estimate_body_font_size`. -/
def estimateBodyFontSize (slide : SlideContent) : ℕ :=
  if 5 ≤ bulletCount slide ∨ 210 < maxBulletLen slide ∨ 680 < totalBulletLen slide then 16
  else if 4 ≤ bulletCount slide ∨ 170 < maxBulletLen slide ∨ 520 < totalBulletLen slide then 18
  else 19

/-- `_estimate_title_font_size`: thresholds on `len(title.strip())`. -/
def estimateTitleFontSize (title : String) : ℕ :=
  let length := (pyStrip title.data).length
  if 90 < length then 24
  else if 70 < length then 26
  else if 52 < length then 30
  else 33

/-! ### `_select_slide_image_pair` -/

/-- `_select_slide_image_pair`: the rotating pair of user images for a slide.
The empty pool yields no images, a single image fills both slots, otherwise
indices `(slide_index*2) % n` and `(first_idx+1) % n` are taken. -/
def selectSlideImagePair (pool : List String) (slideIndex : ℕ) :
    Option String × Option String :=
  match pool with
  | [] => (none, none)
  | [image] => (some image, some image)
  | _ =>
    let firstIdx := (slideIndex * 2) % pool.length
    let secondIdx := (firstIdx + 1) % pool.length
    (pool.get? firstIdx, pool.get? secondIdx)

/-! ### crop-to-fill

`_add_background_image_cover` (lines 137-149) and `_add_user_image`
(lines 254-265) perform the same computation: compare the source aspect ratio
with the target aspect ratio and crop the longer dimension symmetrically,
capping each side at `0.49`. -/

/-- The four crop fractions set on the placed picture. -/
structure CropSpec where
  left : ℚ
  right : ℚ
  top : ℚ
  bottom : ℚ
  deriving DecidableEq

/-- The crop computation shared by `_add_background_image_cover` and
`_add_user_image`. -/
def cropToFill (imageWidth imageHeight targetWidth targetHeight : ℚ) : CropSpec :=
  let imageAspect := imageWidth / imageHeight
  let targetAspect := targetWidth / targetHeight
  if targetAspect < imageAspect then
    let visible := targetAspect / imageAspect
    let cropEach := max 0 (min (49/100) ((1 - visible) / 2))
    ⟨cropEach, cropEach, 0, 0⟩
  else if imageAspect < targetAspect then
    let visible := imageAspect / targetAspect
    let cropEach := max 0 (min (49/100) ((1 - visible) / 2))
    ⟨0, 0, cropEach, cropEach⟩
  else ⟨0, 0, 0, 0⟩

/-! ### `_detect_text_zones_from_background`

The decoded raster is abstracted as an `ImageModel`: its pixel dimensions
plus, for each candidate rectangle, the mean and standard deviation of the
luminance of the cropped region (the output of `ImageStat.Stat`, including
its `128.0`/`0.0` defaults for empty statistics). The scoring formula and the
selection logic are translated exactly; `float("-inf")` becomes `⊥` in
`WithBot ℚ`. -/

/-- A decoded background raster together with its per-region luminance
statistics. -/
structure ImageModel where
  width : ℕ
  height : ℕ
  mean : Rect → ℚ
  stddev : Rect → ℚ

/-- Python `int()` applied to a rational: truncation toward zero. -/
def pyInt (q : ℚ) : ℤ := q.num / (q.den : ℤ)

/-- `_contrast_ratio`: WCAG-style relative-luminance contrast of the text
color against a background mean luminance. -/
def contrastValue (textRgb : ℤ × ℤ × ℤ) (bgLuma : ℚ) : ℚ :=
  let textLuma := ((2126 : ℚ)/10000 * (textRgb.1 : ℚ) + (7152 : ℚ)/10000 * (textRgb.2.1 : ℚ)
    + (722 : ℚ)/10000 * (textRgb.2.2 : ℚ)) / 255
  let bgNorm := bgLuma / 255
  let lighter := max textLuma bgNorm + 5/100
  let darker := min textLuma bgNorm + 5/100
  lighter / darker

/-- `_score_candidate`: degenerate pixel regions score `-inf`; otherwise
`contrast * 120 + (255 - stddev) + area * 25`. -/
def scoreCandidate (image : ImageModel) (textRgb : ℤ × ℤ × ℤ) (box : Rect) : WithBot ℚ :=
  let leftPx := pyInt ((image.width : ℚ) * box.left)
  let topPx := pyInt ((image.height : ℚ) * box.top)
  let rightPx := pyInt ((image.width : ℚ) * (box.left + box.width))
  let bottomPx := pyInt ((image.height : ℚ) * (box.top + box.height))
  if rightPx ≤ leftPx ∨ bottomPx ≤ topPx then ⊥
  else
    ((contrastValue textRgb (image.mean box) * 120 + (255 - image.stddev box)
      + box.width * box.height * 25 : ℚ) : WithBot ℚ)

/-- Python `max(xs, key=score)` starting from an accumulator: the running
maximum is replaced only by a strictly greater key, so the first maximal
element wins, as in CPython. -/
def pyMaxBy (score : Rect → WithBot ℚ) (x0 : Rect) (xs : List Rect) : Rect :=
  xs.foldl (fun b x => if score b < score x then x else b) x0

/-- Python `max(l, key=score)` over a non-empty list (the default is never
read for the concrete candidate lists, which are non-empty). -/
def pyListMax (score : Rect → WithBot ℚ) (l : List Rect) (d : Rect) : Rect :=
  pyMaxBy score (l.headD d) l.tail

/-- The body candidates compatible with a chosen title rectangle:
`[c for c in BODY_ZONE_CANDIDATES if c[1] >= best_title[1] + best_title[3] - 0.01]`,
falling back to the whole candidate list when the restriction empties it. -/
def bodyPool (bestTitle : Rect) : List Rect :=
  if (bodyZoneCandidates.filter
      (fun c => decide (bestTitle.top + bestTitle.height - 1/100 ≤ c.top))).isEmpty then
    bodyZoneCandidates
  else
    bodyZoneCandidates.filter (fun c => decide (bestTitle.top + bestTitle.height - 1/100 ≤ c.top))

/-- The candidate-selection core of `_detect_text_zones_from_background`:
highest-scoring title candidate, then the highest-scoring compatible body
candidate. -/
def detectCore (score : Rect → WithBot ℚ) : Rect × Rect :=
  (pyListMax score titleZoneCandidates TITLE_ZONE,
   pyListMax score (bodyPool (pyListMax score titleZoneCandidates TITLE_ZONE)) BODY_ZONE)

/-- `_detect_text_zones_from_background`: decode the raster and score the
candidates; any exception inside the `try` (image decode failure, or a
`ValueError` from `_hex_to_rgb`) yields the fixed default pair
`(TITLE_ZONE, BODY_ZONE)`. -/
def detectTextZonesFromBackground (image : Option ImageModel) (textColorHex : String) :
    Rect × Rect :=
  match image with
  | some img =>
    match hexToRgb textColorHex with
    | some rgb => detectCore (scoreCandidate img rgb)
    | none => (TITLE_ZONE, BODY_ZONE)
  | none => (TITLE_ZONE, BODY_ZONE)

/-! ### `_adjust_zones_for_dual_images` -/

/-- The four orientations returned by `_pick_image_layout`. -/
inductive Layout where
  | left
  | right
  | top
  | bottom
  deriving DecidableEq

/-- `_adjust_zones_for_dual_images`: re-carve the text zone and carve the
large/small image zones for the chosen orientation. -/
def adjustZonesForDualImages (hasTitle : Bool) (preferredLargeLayout : Layout) :
    Rect × Rect × Rect :=
  match preferredLargeLayout with
  | .top =>
    (⟨8/100, if hasTitle then 50/100 else 44/100, 84/100, if hasTitle then 42/100 else 48/100⟩,
     ⟨6/100, if hasTitle then 10/100 else 6/100, 88/100, if hasTitle then 30/100 else 34/100⟩,
     ⟨68/100, if hasTitle then 38/100 else 34/100, 24/100, 16/100⟩)
  | .bottom =>
    (⟨8/100, if hasTitle then 14/100 else 10/100, 84/100, if hasTitle then 44/100 else 48/100⟩,
     ⟨6/100, 62/100, 88/100, 30/100⟩,
     ⟨8/100, 48/100, 22/100, 14/100⟩)
  | .left =>
    (⟨53/100, if hasTitle then 24/100 else 10/100, 40/100, if hasTitle then 64/100 else 78/100⟩,
     ⟨5/100, if hasTitle then 18/100 else 8/100, 45/100, if hasTitle then 70/100 else 82/100⟩,
     ⟨34/100, if hasTitle then 62/100 else 66/100, 16/100, 22/100⟩)
  | .right =>
    (⟨7/100, if hasTitle then 24/100 else 10/100, 40/100, if hasTitle then 64/100 else 78/100⟩,
     ⟨50/100, if hasTitle then 18/100 else 8/100, 45/100, if hasTitle then 70/100 else 82/100⟩,
     ⟨50/100, if hasTitle then 62/100 else 66/100, 16/100, 22/100⟩)

/-! ### `_render_pdf_pages_to_png` -/

/-- The retained page indices of `_render_pdf_pages_to_png`: skip page 0 when
the document has more than one page, keep everything otherwise. -/
def renderPdfPages (pageCount : ℕ) : List ℕ :=
  let startPage := if 1 < pageCount then 1 else 0
  (List.range pageCount).drop startPage

/-- The temporary PNG written for one rasterized page, identified by its deck
path and page index (each `tempfile.mkstemp` output is fresh; the pair is a
faithful stable key for it within one build). -/
def pageKey (pdfPath : String) (pageIndex : ℕ) : String :=
  pdfPath ++ ":" ++ toString pageIndex

/-! ### `_build_presentation_sync`

The build becomes a pure function producing an ordered list of render plans.
The runtime environment — template registries (`resolve_pdf_template_asset`
and `resolve_template_asset`), PDF page counts, filesystem existence, decoded
rasters, and the `SystemRandom` draw inside `_pick_image_layout` — is an
explicit `BuildEnv` record. -/

/-- The background draw instruction of one slide. -/
inductive Background where
  /-- A rasterized deck page placed full-bleed by `_add_background_image_cover`. -/
  | pdfPage (path : String)
  /-- A static raster asset placed full-bleed by `_add_background_image_cover`. -/
  | staticImage (path : String)
  /-- The procedural theme drawn by `_add_background` with this theme index. -/
  | procedural (index : ℕ)
  deriving DecidableEq

/-- The title text box added on the first slide. -/
structure TitleBox where
  zone : Rect
  text : String
  fontSize : ℕ
  deriving DecidableEq

/-- The render plan of one content slide: background draw op, optional title
box, body box with its bulleted lines, and up to two user-image placements
(each recorded as the `_add_user_image` request `(path, zone)`). -/
structure SlidePlan where
  background : Background
  titleBox : Option TitleBox
  bodyZone : Rect
  bodyLines : List String
  bodyFontSize : ℕ
  largeImage : Option (String × Rect)
  smallImage : Option (String × Rect)
  deriving DecidableEq

/-- One emitted slide: a content slide, or the trailing credits slide (drawn
with the procedural theme at the given theme index, listing each name as its
own centered line). -/
inductive RenderPlan where
  | content (plan : SlidePlan)
  | credits (themeIndex : ℕ) (names : List String)
  deriving DecidableEq

/-- The exceptions `_build_presentation_sync` can raise: the `ValueError` of
`_parse_hex_color`, the `RuntimeError` for an empty PDF template, and the
`RuntimeError` when PyMuPDF is unavailable. -/
inductive BuildError where
  | invalidColor
  | emptyTemplate (path : String)
  | missingRenderer
  deriving DecidableEq

/-- The runtime environment of one build. -/
structure BuildEnv where
  /-- `resolve_pdf_template_asset`: template id to deck asset path. -/
  deckReg : ℕ → Option String
  /-- `resolve_template_asset`: template id to static raster asset path. -/
  rasterReg : ℕ → Option String
  /-- whether the optional `fitz` (PyMuPDF) import succeeded. -/
  fitzAvailable : Bool
  /-- `document.page_count` of the deck at a path. -/
  pdfPageCount : String → ℕ
  /-- `Path.exists()`. -/
  fileExists : String → Bool
  /-- `Image.open`: the decoded raster at a path, `none` on decode failure. -/
  image : String → Option ImageModel
  /-- the oracle for the `SystemRandom` draw in `_pick_image_layout`. -/
  pickLayout : String → Layout

/-- Line 439: `template_types[index] if index < len(template_types) else
(template_types[0] if template_types else 1)`. -/
def templateTypeFor (templateTypes : List ℕ) (index : ℕ) : ℕ :=
  match templateTypes.get? index with
  | some t => t
  | none => templateTypes.headD 1

/-- Lines 442-472: resolve the slide background, returning the draw op and
the `zone_key` (`""` for the procedural theme). A deck asset is rasterized
with the first-page skip rule and the slide draws retained page
`index % len(pages)`; an empty page list raises the empty-template error. -/
def resolveSlideBackground (env : BuildEnv) (index : ℕ) (templateType : ℕ) :
    Except BuildError (Background × String) :=
  match env.deckReg templateType with
  | some pdfPath =>
    if env.fitzAvailable then
      let pages := (renderPdfPages (env.pdfPageCount pdfPath)).map (pageKey pdfPath)
      if pages.isEmpty then .error (.emptyTemplate pdfPath)
      else
        let bgImage := pages.getD (index % pages.length) (pageKey pdfPath 0)
        .ok (.pdfPage bgImage, bgImage)
    else .error .missingRenderer
  | none =>
    match env.rasterReg templateType with
    | some asset => .ok (.staticImage asset, asset)
    | none => .ok (.procedural index, "")

/-- Lines 438-580: compose one content slide. `detect` is the zone lookup the
build performs through `_detect_text_zones_from_background` (memoized per
`zone_key`; memoization of a deterministic function is semantically
transparent, so the cache dictionaries are dropped). -/
def composeSlide (detect : String → Rect × Rect) (env : BuildEnv)
    (topic : String) (templateTypes : List ℕ) (prepared : List String)
    (index : ℕ) (slideContent : SlideContent) : Except BuildError SlidePlan :=
  match resolveSlideBackground env index (templateTypeFor templateTypes index) with
  | .error e => .error e
  | .ok (bg, zoneKey) =>
  let zones := if zoneKey ≠ "" then detect zoneKey else (TITLE_ZONE, BODY_ZONE)
  let hasTitle := index == 0
  let titleText := if hasTitle then topic else ""
  let titleZone := if hasTitle then FIRST_SLIDE_TITLE_ZONE else zones.1
  let pair0 := selectSlideImagePair prepared index
  let pair := if pair0.1 = none ∧ zoneKey ≠ "" ∧ env.fileExists zoneKey then
      (some zoneKey, some zoneKey)
    else pair0
  let baseBody := if hasTitle then zones.2 else BODY_ZONE_NO_TITLE
  let carved :=
    match pair with
    | (some firstImage, some _) =>
      let preferred := env.pickLayout firstImage
      let (tz, lz, sz) := adjustZonesForDualImages hasTitle preferred
      (tz, some lz, some sz)
    | _ => (baseBody, none, none)
  .ok {
    background := bg
    titleBox := if hasTitle then some ⟨titleZone, titleText, estimateTitleFontSize titleText⟩
      else none
    bodyZone := carved.1
    bodyLines := slideContent.bullets.map (fun b => "• " ++ b)
    bodyFontSize := estimateBodyFontSize slideContent
    largeImage := match pair.1, carved.2.1 with
      | some f, some lz => some (f, lz)
      | _, _ => none
    smallImage := match pair.2, carved.2.2 with
      | some s, some sz => some (s, sz)
      | _, _ => none
  }

/-- The `for index, slide_content in enumerate(slides)` loop, emitting one
content render plan per input slide, in input order. -/
def buildSlidesFrom (detect : String → Rect × Rect) (env : BuildEnv)
    (topic : String) (templateTypes : List ℕ) (prepared : List String) :
    ℕ → List SlideContent → Except BuildError (List RenderPlan)
  | _, [] => .ok []
  | index, slideContent :: rest =>
    match composeSlide detect env topic templateTypes prepared index slideContent with
    | .error e => .error e
    | .ok plan =>
      match buildSlidesFrom detect env topic templateTypes prepared (index + 1) rest with
      | .error e => .error e
      | .ok restPlans => .ok (.content plan :: restPlans)

/-- Python `s.split(",")`: split on every comma, keeping empty chunks. -/
def pySplitComma : List Char → List (List Char)
  | [] => [[]]
  | c :: rest =>
    let r := pySplitComma rest
    if c = ',' then [] :: r
    else (c :: r.headD []) :: r.tail

/-- Line 602: `[x.strip() for x in creator_names.split(",") if x.strip()][:20]`. -/
def parseCreatorNames (creatorNames : String) : List String :=
  ((((pySplitComma creatorNames.data).map (fun x => String.mk (pyStrip x))).filter
    (fun x => x ≠ "")).take 20)

/-- `if creator_names:` — Python truthiness of the optional string. -/
def creditsRequested (creatorNames : Option String) : Bool :=
  match creatorNames with
  | some names => names ≠ ""
  | none => false

/-- `_build_presentation_sync` with the zone lookup abstracted: validate the
font color first (its `ValueError` aborts the build before any slide is
composed), prepare the user image pool, emit one content plan per slide, then
append the credits slide when creator names are supplied. -/
def buildWithDetect (detect : String → Rect × Rect) (env : BuildEnv)
    (topic : String) (templateTypes : List ℕ) (slides : List SlideContent)
    (fontName : String) (fontColor : String) (creatorNames : Option String)
    (userImagePaths : List String) : Except BuildError (List RenderPlan) :=
  match parseHexColor fontColor with
  | none => .error .invalidColor
  | some _ =>
    match buildSlidesFrom detect env topic templateTypes
        (userImagePaths.filter env.fileExists) 0 slides with
    | .error e => .error e
    | .ok contentPlans =>
      .ok (contentPlans ++
        (if creditsRequested creatorNames then
          [RenderPlan.credits slides.length (parseCreatorNames (creatorNames.getD ""))]
        else []))

/-- `_build_presentation_sync`: the build with the zone lookup tied to
`_detect_text_zones_from_background` on the environment's rasters and the
build's font color. -/
def buildPresentation (env : BuildEnv) (topic : String) (templateTypes : List ℕ)
    (slides : List SlideContent) (fontName : String) (fontColor : String)
    (creatorNames : Option String) (userImagePaths : List String) :
    Except BuildError (List RenderPlan) :=
  buildWithDetect (fun key => detectTextZonesFromBackground (env.image key) fontColor)
    env topic templateTypes slides fontName fontColor creatorNames userImagePaths

/-! ### Concrete fixtures used by witnesses and counterexamples -/

/-- A zone lookup returning the fixed default pair for every key. -/
def detectDefault : String → Rect × Rect := fun _ => (TITLE_ZONE, BODY_ZONE)

/-- An environment with empty registries, no files and no decodable images. -/
def emptyBuildEnv : BuildEnv where
  deckReg := fun _ => none
  rasterReg := fun _ => none
  fitzAvailable := true
  pdfPageCount := fun _ => 0
  fileExists := fun _ => false
  image := fun _ => none
  pickLayout := fun _ => .left

/-- An environment whose static-raster registry holds only template id 1. -/
def c4Env : BuildEnv :=
  { emptyBuildEnv with rasterReg := fun t => if t = 1 then some ("asset1") else none }

/-- An environment whose deck registry holds a three-page deck for id 5. -/
def c5Env : BuildEnv :=
  { emptyBuildEnv with
    deckReg := fun t => if t = 5 then some ("deck5") else none
    pdfPageCount := fun _ => 3 }

/-- A sample slide content record. -/
def sampleSlide : SlideContent := ⟨"Hello", ["b1", "b2"]⟩

/-- The render plan at an index of a build result. -/
def planAt (result : Except BuildError (List RenderPlan)) (i : ℕ) : Option RenderPlan :=
  match result with
  | .ok plans => plans.get? i
  | .error _ => none

/-- The content slide plan at an index of a build result. -/
def contentAt (result : Except BuildError (List RenderPlan)) (i : ℕ) : Option SlidePlan :=
  match planAt result i with
  | some (.content plan) => some plan
  | _ => none

/-- Whether a build result is a success. -/
def buildOk (result : Except BuildError (List RenderPlan)) : Bool :=
  match result with
  | .ok _ => true
  | .error _ => false

/-- A two-slide build with credits, used as the C1 witness input. -/
def w1Build : Except BuildError (List RenderPlan) :=
  buildWithDetect detectDefault emptyBuildEnv ("T") [] [sampleSlide, sampleSlide]
    ("Arial") ("FFFFFF") (some ("A,B")) []

/-- The plans emitted by `w1Build`. -/
def w1Plans : List RenderPlan := w1Build.toOption.getD []

/-- The body zone of a successful slide composition. -/
def composeBodyZone? (r : Except BuildError SlidePlan) : Option Rect :=
  match r with
  | .ok plan => some plan.bodyZone
  | .error _ => none

/-- The background of a successful slide composition. -/
def composeBackground? (r : Except BuildError SlidePlan) : Option Background :=
  match r with
  | .ok plan => some plan.background
  | .error _ => none

/-- 60 letters: raw length 60, stripped length 60. -/
def c8TitleA : String := String.mk (List.replicate 60 'a')

/-- 50 letters followed by 11 spaces: raw length 61, stripped length 50. -/
def c8TitleB : String := String.mk (List.replicate 50 'a' ++ List.replicate 11 ' ')

/-- The spec's notion of a well-formed color for C9, modelled from its words:
exactly six hexadecimal digits, with or without a single leading `#`. -/
def wellFormedSixHex (s : String) : Bool :=
  (s.data.length == 6 && s.data.all (fun c => (hexDigitVal? c).isSome)) ||
  (s.data.headD ' ' == '#' &&
    (s.data.tail.length == 6 && s.data.tail.all (fun c => (hexDigitVal? c).isSome)))

/-! ## Claim C6: crop-to-fill -/

/-- C6: for positive source and target dimensions, the crop-to-fill
computation of `_add_background_image_cover` / `_add_user_image` is symmetric
(equal fraction on both sides), each side's fraction is strictly below `0.5`,
only the dimension whose aspect exceeds the target's is cropped, and equal
aspect ratios produce a zero crop on all four sides. -/
theorem cropToFill_correct (iw ih tw th : ℚ)
    (hiw : 0 < iw) (hih : 0 < ih) (htw : 0 < tw) (hth : 0 < th) :
    (cropToFill iw ih tw th).left = (cropToFill iw ih tw th).right ∧
    (cropToFill iw ih tw th).top = (cropToFill iw ih tw th).bottom ∧
    (cropToFill iw ih tw th).left < 1/2 ∧
    (cropToFill iw ih tw th).top < 1/2 ∧
    (tw/th < iw/ih → (cropToFill iw ih tw th).top = 0 ∧ (cropToFill iw ih tw th).bottom = 0) ∧
    (iw/ih < tw/th → (cropToFill iw ih tw th).left = 0 ∧ (cropToFill iw ih tw th).right = 0) ∧
    (iw/ih = tw/th → cropToFill iw ih tw th = ⟨0, 0, 0, 0⟩) := by
  have hcap : ∀ x : ℚ, max 0 (min (49/100) x) < 1/2 := fun x =>
    lt_of_le_of_lt (max_le (by norm_num) (min_le_left _ _)) (by norm_num)
  simp only [cropToFill]
  split_ifs with h1 h2
  · exact ⟨rfl, rfl, hcap _, by norm_num, fun _ => ⟨rfl, rfl⟩,
      fun h => absurd h (asymm h1), fun h => absurd (h ▸ h1) (lt_irrefl _)⟩
  · exact ⟨rfl, rfl, by norm_num, hcap _, fun h => absurd h (asymm h2),
      fun _ => ⟨rfl, rfl⟩, fun h => absurd (h ▸ h2) (lt_irrefl _)⟩
  · exact ⟨rfl, rfl, by norm_num, by norm_num, fun h => absurd h h1,
      fun h => absurd h h2, fun _ => rfl⟩

/-- Witness for C6 at a concrete input: a 4:3 image into a 16:9 box crops
only top/bottom, and the crop is strictly below one half. -/
theorem cropToFill_correct_witness :
    (0:ℚ) < 4 ∧
    ((cropToFill 4 3 16 9).left = 0 ∧ (cropToFill 4 3 16 9).right = 0) ∧
    (cropToFill 4 3 16 9).top < 1/2 :=
  ⟨by norm_num,
   (cropToFill_correct 4 3 16 9 (by norm_num) (by norm_num) (by norm_num)
      (by norm_num)).2.2.2.2.2.1 (by norm_num),
   (cropToFill_correct 4 3 16 9 (by norm_num) (by norm_num) (by norm_num)
      (by norm_num)).2.2.2.1⟩

/-! ## Claim C7: image-pair selection -/

/-- C7: `_select_slide_image_pair` returns no images for an empty pool, the
same image twice for a singleton pool, and pool indices
`(2i mod N, (2i+1) mod N)` for a pool of size `N > 2`. -/
theorem selectSlideImagePair_correct (pool : List String) (i : ℕ) :
    (pool = [] → selectSlideImagePair pool i = (none, none)) ∧
    (∀ img, pool = [img] → selectSlideImagePair pool i = (some img, some img)) ∧
    (2 < pool.length → selectSlideImagePair pool i =
      (pool.get? ((2 * i) % pool.length), pool.get? ((2 * i + 1) % pool.length))) := by
  refine ⟨fun h => by subst h; rfl, fun img h => by subst h; rfl, fun h => ?_⟩
  match pool, h with
  | a :: b :: rest, _ =>
    show (_, (a :: b :: rest).get? (((i * 2) % (a :: b :: rest).length + 1) %
        (a :: b :: rest).length)) = _
    rw [Nat.mul_comm i 2, Nat.mod_add_mod]

/-- Witness for C7: a three-image pool at slide index 2 wraps around to
indices `(4 mod 3, 5 mod 3) = (1, 2)`. -/
theorem selectSlideImagePair_correct_witness :
    2 < (["a", "b", "c"] : List String).length ∧
    selectSlideImagePair ["a", "b", "c"] 2 = (some ("b"), some ("c")) :=
  ⟨by decide,
   ((selectSlideImagePair_correct ["a", "b", "c"] 2).2.2 (by decide)).trans (by decide)⟩

/-! ## Claim C8: font-size monotonicity -/

/-- C8 counterexample: the title estimator thresholds `len(title.strip())`,
not `len(title)`, so with `len(t1) ≤ len(t2)` (60 letters, versus 50 letters
padded with 11 trailing spaces to raw length 61) the size chosen for `t1` is
strictly smaller than the size chosen for `t2`. -/
theorem titleFontSize_not_monotone_in_raw_length :
    c8TitleA.length ≤ c8TitleB.length ∧
    estimateTitleFontSize c8TitleA < estimateTitleFontSize c8TitleB := by
  constructor
  · show (String.mk _).length ≤ (String.mk _).length
    simp [String.length]
  · show (30 : ℕ) < 33
    norm_num

/-- C8 amended: the title estimator is monotonically non-increasing in the
*stripped* title length, and the body estimator is monotonically
non-increasing pointwise in bullet count, maximum bullet length and total
bullet length. -/
theorem fontSize_monotone :
    (∀ t1 t2 : String, (pyStrip t1.data).length ≤ (pyStrip t2.data).length →
      estimateTitleFontSize t2 ≤ estimateTitleFontSize t1) ∧
    (∀ s1 s2 : SlideContent, bulletCount s2 ≤ bulletCount s1 →
      maxBulletLen s2 ≤ maxBulletLen s1 → totalBulletLen s2 ≤ totalBulletLen s1 →
      estimateBodyFontSize s1 ≤ estimateBodyFontSize s2) := by
  constructor
  · intro t1 t2 h
    simp only [estimateTitleFontSize]
    split_ifs <;> omega
  · intro s1 s2 hc hm ht
    simp only [estimateBodyFontSize]
    split_ifs <;> omega

/-- Witness for the amended C8 at concrete inputs. -/
theorem fontSize_monotone_witness :
    ((pyStrip ("ab").data).length ≤ (pyStrip ("abcd").data).length ∧
      estimateTitleFontSize ("abcd") ≤ estimateTitleFontSize ("ab")) ∧
    (bulletCount ⟨"", []⟩ ≤ bulletCount ⟨"", ["xy"]⟩ ∧
      estimateBodyFontSize ⟨"", ["xy"]⟩ ≤ estimateBodyFontSize ⟨"", []⟩) :=
  ⟨⟨by decide, fontSize_monotone.1 ("ab") ("abcd") (by decide)⟩,
   ⟨by decide, fontSize_monotone.2 ⟨"", ["xy"]⟩ ⟨"", []⟩ (by decide) (by decide) (by decide)⟩⟩

/-! ## Claim C9: color validation at the engine boundary -/

theorem hexDigitVal?_le_15 {c : Char} {v : ℕ} (h : hexDigitVal? c = some v) : v ≤ 15 := by
  unfold hexDigitVal? at h
  have h0 : '0'.toNat = 48 := rfl
  have h9 : '9'.toNat = 57 := rfl
  have ha : 'a'.toNat = 97 := rfl
  have hA : 'A'.toNat = 65 := rfl
  split_ifs at h with h1 h2 h3 <;> injection h with h <;> subst h
  · have : c.toNat ≤ '9'.toNat := h1.2
    omega
  · have : c.toNat ≤ 'f'.toNat := h2.2
    have hf : 'f'.toNat = 102 := rfl
    omega
  · have : c.toNat ≤ 'F'.toNat := h3.2
    have hF : 'F'.toNat = 70 := rfl
    omega

theorem pyIsSpace_of_hexDigit {c : Char} (h : (hexDigitVal? c).isSome = true) :
    pyIsSpace c = false := by
  unfold hexDigitVal? at h
  unfold pyIsSpace
  split_ifs at h with h1 h2 h3
  · rcases h1 with ⟨hl, _⟩
    simp only [Bool.or_eq_false_iff, decide_eq_false_iff_not]
    refine ⟨⟨⟨⟨⟨?_, ?_⟩, ?_⟩, ?_⟩, ?_⟩, ?_⟩ <;> rintro rfl <;> revert hl <;> decide
  · rcases h2 with ⟨hl, _⟩
    simp only [Bool.or_eq_false_iff, decide_eq_false_iff_not]
    refine ⟨⟨⟨⟨⟨?_, ?_⟩, ?_⟩, ?_⟩, ?_⟩, ?_⟩ <;> rintro rfl <;> revert hl <;> decide
  · rcases h3 with ⟨hl, _⟩
    simp only [Bool.or_eq_false_iff, decide_eq_false_iff_not]
    refine ⟨⟨⟨⟨⟨?_, ?_⟩, ?_⟩, ?_⟩, ?_⟩, ?_⟩ <;> rintro rfl <;> revert hl <;> decide
  · simp at h

theorem hexDigit_ne_hash {c : Char} (h : (hexDigitVal? c).isSome = true) : c ≠ '#' := by
  unfold hexDigitVal? at h
  split_ifs at h with h1 h2 h3
  · rintro rfl; revert h1; decide
  · rintro rfl; revert h2; decide
  · rintro rfl; revert h3; decide
  · simp at h

theorem dropWhile_eq_self_of_all {p : Char → Bool} {cs : List Char}
    (h : ∀ c ∈ cs, p c = false) : cs.dropWhile p = cs := by
  cases cs with
  | nil => rfl
  | cons a t => simp [List.dropWhile_cons, h a (List.mem_cons_self a t)]

theorem pyStrip_eq_self_of_all {cs : List Char}
    (h : ∀ c ∈ cs, pyIsSpace c = false) : pyStrip cs = cs := by
  unfold pyStrip
  rw [dropWhile_eq_self_of_all h,
    dropWhile_eq_self_of_all (fun c hc => h c (List.mem_reverse.mp hc)),
    List.reverse_reverse]

theorem parseHexColor_isSome_of_sixHex {cs : List Char}
    (h6 : cs.length = 6) (hall : ∀ c ∈ cs, (hexDigitVal? c).isSome = true)
    {s : String} (hval : pyLstripHash (pyStrip s.data) = cs) :
    (parseHexColor s).isSome = true := by
  unfold parseHexColor
  rw [hval]
  rcases cs with _ | ⟨a, _ | ⟨b, _ | ⟨c, _ | ⟨d, _ | ⟨e, _ | ⟨f, _ | ⟨g, t⟩⟩⟩⟩⟩⟩⟩ <;>
    simp only [List.length] at h6 <;> try omega
  obtain ⟨xa, hxa⟩ := Option.isSome_iff_exists.mp (hall a (by simp))
  obtain ⟨xb, hxb⟩ := Option.isSome_iff_exists.mp (hall b (by simp))
  obtain ⟨xc, hxc⟩ := Option.isSome_iff_exists.mp (hall c (by simp))
  obtain ⟨xd, hxd⟩ := Option.isSome_iff_exists.mp (hall d (by simp))
  obtain ⟨xe, hxe⟩ := Option.isSome_iff_exists.mp (hall e (by simp))
  obtain ⟨xf, hxf⟩ := Option.isSome_iff_exists.mp (hall f (by simp))
  have bxa := hexDigitVal?_le_15 hxa
  have bxb := hexDigitVal?_le_15 hxb
  have bxc := hexDigitVal?_le_15 hxc
  have bxd := hexDigitVal?_le_15 hxd
  have bxe := hexDigitVal?_le_15 hxe
  have bxf := hexDigitVal?_le_15 hxf
  simp only [pyIntHex2, hxa, hxb, hxc, hxd, hxe, hxf]
  rw [if_pos]
  · simp
  · refine ⟨by positivity, ?_, by positivity, ?_, by positivity, ?_⟩ <;> omega

/-- C9 amended: a font color the parser rejects aborts the build with the
invalid-color error before any slide is composed (the build result carries no
plans at all); and every well-formed six-hex-digit color, with or without one
leading `#`, is accepted. (As the counterexample shows, acceptance is strictly
wider than the six-hex-digit form.) -/
theorem invalidColor_failfast :
    (∀ detect env topic templateTypes slides fontName fontColor creatorNames userImagePaths,
      parseHexColor fontColor = none →
      buildWithDetect detect env topic templateTypes slides fontName fontColor
        creatorNames userImagePaths = .error .invalidColor) ∧
    (∀ s : String, wellFormedSixHex s = true → (parseHexColor s).isSome = true) := by
  constructor
  · intro detect env topic templateTypes slides fontName fontColor creatorNames userImagePaths h
    unfold buildWithDetect
    rw [h]
  · intro s hs
    unfold wellFormedSixHex at hs
    rw [Bool.or_eq_true] at hs
    rcases hs with hcase | hcase
    · rw [Bool.and_eq_true] at hcase
      obtain ⟨h6, hall⟩ := hcase
      have h6 : s.data.length = 6 := by simpa using h6
      have hall : ∀ c ∈ s.data, (hexDigitVal? c).isSome = true := by
        simpa [List.all_eq_true] using hall
      refine parseHexColor_isSome_of_sixHex h6 hall ?_
      rw [pyStrip_eq_self_of_all (fun c hc => pyIsSpace_of_hexDigit (hall c hc))]
      exact dropWhile_eq_self_of_all
        (fun c hc => by simpa using hexDigit_ne_hash (hall c hc))
    · rw [Bool.and_eq_true] at hcase
      obtain ⟨hhead, hrest⟩ := hcase
      rw [Bool.and_eq_true] at hrest
      obtain ⟨h6, hall⟩ := hrest
      have h6 : s.data.tail.length = 6 := by simpa using h6
      have hall : ∀ c ∈ s.data.tail, (hexDigitVal? c).isSome = true := by
        simpa [List.all_eq_true] using hall
      rcases hd : s.data with _ | ⟨a, t⟩
      · rw [hd] at hhead; simp at hhead
      · have ha : a = '#' := by
          rw [hd] at hhead; simpa using hhead
        rw [hd] at h6 hall
        simp only [List.tail_cons] at h6 hall
        subst ha
        refine parseHexColor_isSome_of_sixHex h6 hall ?_
        rw [hd]
        have hstrip : pyStrip ('#' :: t) = '#' :: t := by
          refine pyStrip_eq_self_of_all ?_
          intro c hc
          rcases List.mem_cons.mp hc with rfl | hc
          · decide
          · exact pyIsSpace_of_hexDigit (hall c hc)
        rw [hstrip]
        unfold pyLstripHash
        rw [List.dropWhile_cons]
        simp only [decide_True, if_true]
        exact dropWhile_eq_self_of_all
          (fun c hc => by simpa using hexDigit_ne_hash (hall c hc))

/-- Witness for the amended C9: a malformed color aborts a concrete build;
a six-hex color with a leading `#` is accepted. -/
theorem invalidColor_failfast_witness :
    (parseHexColor ("xyz") = none ∧
      buildWithDetect detectDefault emptyBuildEnv ("T") [] [sampleSlide] ("Arial") ("xyz")
        none [] = .error .invalidColor) ∧
    (wellFormedSixHex ("#1A2b3C") = true ∧ (parseHexColor ("#1A2b3C")).isSome = true) :=
  ⟨⟨by decide, invalidColor_failfast.1 detectDefault emptyBuildEnv ("T") [] [sampleSlide]
      ("Arial") ("xyz") none [] (by decide)⟩,
   ⟨by decide, invalidColor_failfast.2 ("#1A2b3C") (by decide)⟩⟩

/-- C9 counterexample: the color `"F FFFF"` is not a six-hex-digit value, yet
`_parse_hex_color` accepts it (Python `int(_, 16)` tolerates whitespace inside
a two-character slice) and a concrete build succeeds rather than failing
fast. -/
theorem invalidColor_not_failfast_counterexample :
    wellFormedSixHex ("F FFFF") = false ∧
    parseHexColor ("F FFFF") = some (15, 255, 255) ∧
    buildOk (buildWithDetect detectDefault emptyBuildEnv ("T") [] [sampleSlide] ("Arial")
      ("F FFFF") none []) = true := by
  refine ⟨by decide, by decide, ?_⟩
  decide

/-! ## Claim C2: zone-pair invariant -/

theorem pyMaxBy_mem (score : Rect → WithBot ℚ) (xs : List Rect) :
    ∀ x0, pyMaxBy score x0 xs ∈ x0 :: xs := by
  induction xs with
  | nil => intro x0; simp [pyMaxBy]
  | cons a t ih =>
    intro x0
    have h := ih (if score x0 < score a then a else x0)
    simp only [pyMaxBy, List.foldl_cons] at h ⊢
    by_cases hc : score x0 < score a
    · rw [if_pos hc] at h ⊢
      exact List.mem_cons_of_mem x0 h
    · rw [if_neg hc] at h ⊢
      rcases List.mem_cons.mp h with h | h
      · rw [h]; exact List.mem_cons_self _ _
      · exact List.mem_cons_of_mem x0 (List.mem_cons_of_mem a h)

theorem pyListMax_mem (score : Rect → WithBot ℚ) (d : Rect) {l : List Rect}
    (h : l ≠ []) : pyListMax score l d ∈ l := by
  rcases l with _ | ⟨a, t⟩
  · cases h rfl
  · simpa [pyListMax] using pyMaxBy_mem score t a

theorem bodyPool_ne_nil (t : Rect) : bodyPool t ≠ [] := by
  unfold bodyPool
  split_ifs with h
  · unfold bodyZoneCandidates
    exact List.cons_ne_nil _ _
  · intro hnil
    rw [hnil] at h
    simp at h

theorem bodyPool_subset {t b : Rect} (h : b ∈ bodyPool t) : b ∈ bodyZoneCandidates := by
  unfold bodyPool at h
  split_ifs at h
  · exact h
  · exact List.mem_of_mem_filter h

theorem titleCandidates_le {t : Rect} (ht : t ∈ titleZoneCandidates) :
    t.top + t.height ≤ 35/100 := by
  fin_cases ht <;> norm_num

/-- Every member of the (possibly fallback) body pool starts no higher than
`0.01` above the bottom of a title rectangle that ends by `0.35`; in
particular the unrestricted fallback never fires for such titles, because the
`0.34`-top body candidate always survives the restriction. -/
theorem bodyPool_le {t b : Rect} (hmax : t.top + t.height ≤ 35/100)
    (hb : b ∈ bodyPool t) : t.top + t.height ≤ b.top + 1/100 := by
  unfold bodyPool at hb
  split_ifs at hb with h
  · exfalso
    have hmem : (⟨12/100, 34/100, 76/100, 50/100⟩ : Rect) ∈
        bodyZoneCandidates.filter
          (fun c => decide (t.top + t.height - 1/100 ≤ c.top)) := by
      refine List.mem_filter.mpr ⟨?_, ?_⟩
      · unfold bodyZoneCandidates
        simp
      · rw [decide_eq_true_eq]
        show t.top + t.height - 1/100 ≤ 34/100
        linarith
    rw [List.isEmpty_iff.mp h] at hmem
    exact List.not_mem_nil _ hmem
  · have hpred := (List.mem_filter.mp hb).2
    rw [decide_eq_true_eq] at hpred
    linarith

theorem titleCandidates_inUnit {t : Rect} (ht : t ∈ titleZoneCandidates) :
    inUnitSquare t := by
  fin_cases ht <;> norm_num [inUnitSquare]

theorem bodyCandidates_inUnit {b : Rect} (hb : b ∈ bodyZoneCandidates) :
    inUnitSquare b := by
  fin_cases hb <;> norm_num [inUnitSquare]

theorem detectCore_invariant (score : Rect → WithBot ℚ) :
    (detectCore score).1.top + (detectCore score).1.height ≤ (detectCore score).2.top + 1/100 ∧
    inUnitSquare (detectCore score).1 ∧ inUnitSquare (detectCore score).2 := by
  have ht : (detectCore score).1 ∈ titleZoneCandidates :=
    pyListMax_mem score TITLE_ZONE (by unfold titleZoneCandidates; exact List.cons_ne_nil _ _)
  have hb : (detectCore score).2 ∈ bodyPool (detectCore score).1 :=
    pyListMax_mem score BODY_ZONE (bodyPool_ne_nil _)
  exact ⟨bodyPool_le (titleCandidates_le ht) hb, titleCandidates_inUnit ht,
    bodyCandidates_inUnit (bodyPool_subset hb)⟩

/-- C2: for every raster background (decoded or not) and every text color,
the zone pair returned by `_detect_text_zones_from_background` — whether
selected from the candidate sets or the fixed default pair on decode
failure — satisfies `title.top + title.height ≤ body.top + 0.01`, and both
rectangles lie fully inside the unit square. -/
theorem zonePair_invariant (image? : Option ImageModel) (textColorHex : String) :
    (detectTextZonesFromBackground image? textColorHex).1.top +
      (detectTextZonesFromBackground image? textColorHex).1.height ≤
      (detectTextZonesFromBackground image? textColorHex).2.top + 1/100 ∧
    inUnitSquare (detectTextZonesFromBackground image? textColorHex).1 ∧
    inUnitSquare (detectTextZonesFromBackground image? textColorHex).2 := by
  unfold detectTextZonesFromBackground
  rcases image? with _ | img
  · exact ⟨by norm_num [TITLE_ZONE, BODY_ZONE],
      by norm_num [inUnitSquare, TITLE_ZONE, BODY_ZONE],
      by norm_num [inUnitSquare, TITLE_ZONE, BODY_ZONE]⟩
  · cases hrgb : hexToRgb textColorHex with
    | none =>
      exact ⟨by norm_num [TITLE_ZONE, BODY_ZONE],
        by norm_num [inUnitSquare, TITLE_ZONE, BODY_ZONE],
        by norm_num [inUnitSquare, TITLE_ZONE, BODY_ZONE]⟩
    | some rgb => exact detectCore_invariant _

/-! ## Build structure lemmas (shared) -/

theorem buildSlidesFrom_spec (detect : String → Rect × Rect) (env : BuildEnv)
    (topic : String) (templateTypes : List ℕ) (prepared : List String) :
    ∀ (slides : List SlideContent) (start : ℕ) (out : List RenderPlan),
      buildSlidesFrom detect env topic templateTypes prepared start slides = .ok out →
      out.length = slides.length ∧
      ∀ k, k < slides.length → ∃ sc plan,
        slides.get? k = some sc ∧
        composeSlide detect env topic templateTypes prepared (start + k) sc = .ok plan ∧
        out.get? k = some (.content plan) := by
  intro slides
  induction slides with
  | nil =>
    intro start out h
    simp only [buildSlidesFrom] at h
    injection h with h
    subst h
    exact ⟨rfl, fun k hk => absurd hk (by simp)⟩
  | cons s rest ih =>
    intro start out h
    simp only [buildSlidesFrom] at h
    cases hc : composeSlide detect env topic templateTypes prepared start s with
    | error e => rw [hc] at h; cases h
    | ok plan =>
      rw [hc] at h
      cases hr : buildSlidesFrom detect env topic templateTypes prepared (start + 1) rest with
      | error e => rw [hr] at h; cases h
      | ok restPlans =>
        rw [hr] at h
        injection h with h
        subst h
        obtain ⟨hlen, hspec⟩ := ih (start + 1) restPlans hr
        refine ⟨by simp [hlen], ?_⟩
        intro k hk
        cases k with
        | zero => exact ⟨s, plan, rfl, by simpa using hc, rfl⟩
        | succ k =>
          have hk2 : k < rest.length := by simpa using hk
          obtain ⟨sc, plan2, h1, h2, h3⟩ := hspec k hk2
          refine ⟨sc, plan2, by simpa using h1, ?_, by simpa using h3⟩
          rw [show start + (k + 1) = start + 1 + k by omega]
          exact h2

theorem buildWithDetect_decomp (detect : String → Rect × Rect) (env : BuildEnv)
    (topic : String) (templateTypes : List ℕ) (slides : List SlideContent)
    (fontName fontColor : String) (creatorNames : Option String)
    (userImagePaths : List String) (plans : List RenderPlan)
    (h : buildWithDetect detect env topic templateTypes slides fontName fontColor
      creatorNames userImagePaths = .ok plans) :
    ∃ contentPlans,
      buildSlidesFrom detect env topic templateTypes (userImagePaths.filter env.fileExists)
        0 slides = .ok contentPlans ∧
      plans = contentPlans ++
        (if creditsRequested creatorNames = true then
          [RenderPlan.credits slides.length (parseCreatorNames (creatorNames.getD ""))]
        else []) := by
  unfold buildWithDetect at h
  cases hp : parseHexColor fontColor with
  | none => rw [hp] at h; cases h
  | some c =>
    rw [hp] at h
    cases hb : buildSlidesFrom detect env topic templateTypes
        (userImagePaths.filter env.fileExists) 0 slides with
    | error e => rw [hb] at h; cases h
    | ok contentPlans =>
      rw [hb] at h
      injection h with h
      subst h
      exact ⟨contentPlans, rfl, by split_ifs <;> rfl⟩

/-! ## Claim C1: output shape and ordering -/

/-- C1: a successful build emits exactly one content slide per input slide,
in input order (the `k`-th emitted plan is composed from the `k`-th input
`SlideContent` at slide index `k`), plus exactly one trailing credits slide —
drawn with the procedural theme at theme index `len(slides)` — exactly when
creator names are supplied (a non-empty string). -/
theorem build_output_shape (detect : String → Rect × Rect) (env : BuildEnv)
    (topic : String) (templateTypes : List ℕ) (slides : List SlideContent)
    (fontName fontColor : String) (creatorNames : Option String)
    (userImagePaths : List String) (plans : List RenderPlan)
    (h : buildWithDetect detect env topic templateTypes slides fontName fontColor
      creatorNames userImagePaths = .ok plans) :
    plans.length = slides.length + (if creditsRequested creatorNames = true then 1 else 0) ∧
    (∀ k, k < slides.length → ∃ sc plan,
      slides.get? k = some sc ∧
      composeSlide detect env topic templateTypes (userImagePaths.filter env.fileExists)
        k sc = .ok plan ∧
      plans.get? k = some (.content plan)) ∧
    (creditsRequested creatorNames = true →
      plans.get? slides.length =
        some (.credits slides.length (parseCreatorNames (creatorNames.getD "")))) := by
  obtain ⟨contentPlans, hb, rfl⟩ := buildWithDetect_decomp detect env topic templateTypes
    slides fontName fontColor creatorNames userImagePaths plans h
  obtain ⟨hlen, hspec⟩ := buildSlidesFrom_spec detect env topic templateTypes
    (userImagePaths.filter env.fileExists) slides 0 contentPlans hb
  refine ⟨?_, ?_, ?_⟩
  · rw [List.length_append, hlen]
    split_ifs <;> simp
  · intro k hk
    obtain ⟨sc, plan, h1, h2, h3⟩ := hspec k hk
    refine ⟨sc, plan, h1, by simpa using h2, ?_⟩
    rw [List.get?_append (by omega)]
    exact h3
  · intro hc
    rw [List.get?_append_right (by omega), hlen, Nat.sub_self, if_pos hc]
    rfl

/-- Witness for C1: a concrete two-slide build with creator names emits three
plans, the last being the credits slide at theme index 2. -/
theorem build_output_shape_witness :
    w1Build = .ok w1Plans ∧ w1Plans.length = 3 ∧
    w1Plans.get? 2 = some (.credits 2 ["A", "B"]) := by
  have h : w1Build = .ok w1Plans := rfl
  have hs := build_output_shape detectDefault emptyBuildEnv ("T") [] [sampleSlide, sampleSlide]
    ("Arial") ("FFFFFF") (some ("A,B")) [] w1Plans h
  exact ⟨h, hs.1, hs.2.2 rfl⟩

/-! ## Claim C10: the detected title zone never influences the output -/

theorem composeSlide_titleBox {detect : String → Rect × Rect} {env : BuildEnv}
    {topic : String} {templateTypes : List ℕ} {prepared : List String}
    {index : ℕ} {sc : SlideContent} {plan : SlidePlan}
    (h : composeSlide detect env topic templateTypes prepared index sc = .ok plan) :
    plan.titleBox = if index == 0 then
      some ⟨FIRST_SLIDE_TITLE_ZONE, topic, estimateTitleFontSize topic⟩ else none := by
  unfold composeSlide at h
  cases hres : resolveSlideBackground env index (templateTypeFor templateTypes index) with
  | error e => rw [hres] at h; cases h
  | ok bgzk =>
    obtain ⟨bg, zoneKey⟩ := bgzk
    rw [hres] at h
    injection h with h
    subst h
    by_cases hi : index = 0
    · subst hi; simp
    · have hb : (index == 0) = false := by simpa using hi
      simp [hb]

theorem composeSlide_detect_congr {d1 d2 : String → Rect × Rect}
    (hd : ∀ k, (d1 k).2 = (d2 k).2) (env : BuildEnv) (topic : String)
    (templateTypes : List ℕ) (prepared : List String) (index : ℕ) (sc : SlideContent) :
    composeSlide d1 env topic templateTypes prepared index sc =
      composeSlide d2 env topic templateTypes prepared index sc := by
  unfold composeSlide
  cases hres : resolveSlideBackground env index (templateTypeFor templateTypes index) with
  | error e => rfl
  | ok bgzk =>
    obtain ⟨bg, zoneKey⟩ := bgzk
    by_cases hz : zoneKey = ""
    · simp [hz]
    · by_cases hi : index = 0
      · subst hi
        simp [hz, hd zoneKey]
      · have hb : (index == 0) = false := by simpa using hi
        simp [hz, hb]

theorem buildSlidesFrom_detect_congr {d1 d2 : String → Rect × Rect}
    (hd : ∀ k, (d1 k).2 = (d2 k).2) (env : BuildEnv) (topic : String)
    (templateTypes : List ℕ) (prepared : List String) :
    ∀ (slides : List SlideContent) (start : ℕ),
      buildSlidesFrom d1 env topic templateTypes prepared start slides =
        buildSlidesFrom d2 env topic templateTypes prepared start slides := by
  intro slides
  induction slides with
  | nil => intro start; rfl
  | cons s rest ih =>
    intro start
    simp only [buildSlidesFrom]
    rw [composeSlide_detect_congr hd env topic templateTypes prepared start s, ih (start + 1)]

/-- C10: a title text box is emitted only on slide index 0, and there it is
always placed at the fixed `FIRST_SLIDE_TITLE_ZONE` with the topic text; the
title half of the detected zone pair never influences the output — two zone
lookups agreeing on the body halves produce identical build results. -/
theorem titleZone_irrelevant (env : BuildEnv) (topic : String)
    (templateTypes : List ℕ) (slides : List SlideContent)
    (fontName fontColor : String) (creatorNames : Option String)
    (userImagePaths : List String) (d1 d2 : String → Rect × Rect)
    (hd : ∀ k, (d1 k).2 = (d2 k).2) :
    buildWithDetect d1 env topic templateTypes slides fontName fontColor creatorNames
        userImagePaths =
      buildWithDetect d2 env topic templateTypes slides fontName fontColor creatorNames
        userImagePaths ∧
    (∀ plans i plan,
      buildWithDetect d1 env topic templateTypes slides fontName fontColor creatorNames
        userImagePaths = .ok plans →
      plans.get? i = some (.content plan) →
      plan.titleBox = if i == 0 then
        some ⟨FIRST_SLIDE_TITLE_ZONE, topic, estimateTitleFontSize topic⟩ else none) := by
  constructor
  · unfold buildWithDetect
    rw [buildSlidesFrom_detect_congr hd]
  · intro plans i plan hok hget
    obtain ⟨contentPlans, hb, rfl⟩ := buildWithDetect_decomp d1 env topic templateTypes
      slides fontName fontColor creatorNames userImagePaths plans hok
    obtain ⟨hlen, hspec⟩ := buildSlidesFrom_spec d1 env topic templateTypes
      (userImagePaths.filter env.fileExists) slides 0 contentPlans hb
    by_cases hi : i < contentPlans.length
    · rw [List.get?_append hi] at hget
      obtain ⟨sc, plan2, h1, h2, h3⟩ := hspec i (by omega)
      rw [h3] at hget
      injection hget with hget
      injection hget with hget
      subst hget
      exact composeSlide_titleBox (by simpa using h2)
    · rw [List.get?_append_right (by omega)] at hget
      split_ifs at hget
      · cases hn : i - contentPlans.length with
        | zero => rw [hn] at hget; simp at hget
        | succ n => rw [hn] at hget; simp at hget
      · simp at hget

/-- Witness for C10: two lookups with different title halves but the same
body halves yield identical build results over a raster background. -/
theorem titleZone_irrelevant_witness :
    buildWithDetect detectDefault c4Env ("T") [1] [sampleSlide, sampleSlide] ("Arial")
        ("FFFFFF") none [] =
      buildWithDetect (fun _ => (⟨0, 0, 1, 1⟩, BODY_ZONE)) c4Env ("T") [1]
        [sampleSlide, sampleSlide] ("Arial") ("FFFFFF") none [] :=
  (titleZone_irrelevant c4Env ("T") [1] [sampleSlide, sampleSlide] ("Arial") ("FFFFFF")
    none [] detectDefault (fun _ => (⟨0, 0, 1, 1⟩, BODY_ZONE)) (fun _ => rfl)).1

/-! ## Claim C3: text zones when no user images are configured -/

/-- C3 counterexample: with no user images and a procedural background, the
step-2 zones are `(TITLE_ZONE, BODY_ZONE)`, but slide index 1 places its body
text at `BODY_ZONE_NO_TITLE`, not at the step-2 body zone. -/
theorem zones_not_unmodified_counterexample :
    (contentAt (buildWithDetect detectDefault emptyBuildEnv ("T") [] [sampleSlide, sampleSlide]
        ("Arial") ("FFFFFF") none []) 1).map SlidePlan.bodyZone = some BODY_ZONE_NO_TITLE ∧
    BODY_ZONE_NO_TITLE ≠ BODY_ZONE ∧
    (contentAt (buildWithDetect detectDefault emptyBuildEnv ("T") [] [sampleSlide, sampleSlide]
        ("Arial") ("FFFFFF") none []) 1).map SlidePlan.largeImage = some none := by
  refine ⟨rfl, ?_, rfl⟩
  intro h
  have ht := congrArg Rect.top h
  norm_num [BODY_ZONE, BODY_ZONE_NO_TITLE] at ht

/-- C3 amended: with no user images configured, a slide computes no image
layout plan only when its background is procedural (`zone_key` empty) or its
background raster file does not exist; the body text zone is then the step-2
body zone on slide 0 and the fixed `BODY_ZONE_NO_TITLE` on later slides. When
the background raster file exists, the background image itself is adopted for
both image slots and the zones are re-carved by the dual-image layout. -/
theorem noUserImages_zones (detect : String → Rect × Rect) (env : BuildEnv)
    (topic : String) (templateTypes : List ℕ) (index : ℕ) (sc : SlideContent)
    (bg : Background) (zoneKey : String)
    (hres : resolveSlideBackground env index (templateTypeFor templateTypes index) =
      .ok (bg, zoneKey)) :
    (zoneKey = "" ∨ env.fileExists zoneKey = false →
      ∃ plan, composeSlide detect env topic templateTypes [] index sc = .ok plan ∧
        plan.largeImage = none ∧ plan.smallImage = none ∧
        plan.bodyZone = (if index == 0 then
            (if zoneKey ≠ "" then detect zoneKey else (TITLE_ZONE, BODY_ZONE)).2
          else BODY_ZONE_NO_TITLE)) ∧
    (zoneKey ≠ "" → env.fileExists zoneKey = true →
      ∃ plan, composeSlide detect env topic templateTypes [] index sc = .ok plan ∧
        plan.largeImage = some (zoneKey,
          (adjustZonesForDualImages (index == 0) (env.pickLayout zoneKey)).2.1) ∧
        plan.smallImage = some (zoneKey,
          (adjustZonesForDualImages (index == 0) (env.pickLayout zoneKey)).2.2) ∧
        plan.bodyZone =
          (adjustZonesForDualImages (index == 0) (env.pickLayout zoneKey)).1) := by
  constructor
  · intro hno
    refine ⟨_, by unfold composeSlide; rw [hres], ?_, ?_, ?_⟩ <;>
      rcases hno with hz | hf
    · simp [selectSlideImagePair, hz]
    · simp [selectSlideImagePair, hf]
    · simp [selectSlideImagePair, hz]
    · simp [selectSlideImagePair, hf]
    · simp [selectSlideImagePair, hz]
    · simp [selectSlideImagePair, hf]
  · intro hz hf
    refine ⟨_, by unfold composeSlide; rw [hres], ?_, ?_, ?_⟩ <;>
      simp [selectSlideImagePair, hz, hf]

/-- Witness for the amended C3: a concrete procedural slide at index 1 with
no user images places its body text at `BODY_ZONE_NO_TITLE`. -/
theorem noUserImages_zones_witness :
    resolveSlideBackground emptyBuildEnv 1 (templateTypeFor [] 1) =
      .ok (.procedural 1, ("")) ∧
    composeBodyZone? (composeSlide detectDefault emptyBuildEnv ("T") [] [] 1 sampleSlide) =
      some BODY_ZONE_NO_TITLE := by
  refine ⟨rfl, ?_⟩
  obtain ⟨plan, hok, hl, hs, hbody⟩ :=
    (noUserImages_zones detectDefault emptyBuildEnv ("T") [] 1 sampleSlide
      (.procedural 1) ("") rfl).1 (Or.inl rfl)
  unfold composeBodyZone?
  rw [hok]
  simp [hbody]

/-! ## Claim C4: unsupported template ids -/

/-- C4 counterexample: with template ids `[1, 7]`, id 1 a static raster and
id 7 absent from both registries, slide 1 gets the procedural theme — the
engine does not fall back to the first configured template id (which would
give the static raster of id 1). -/
theorem unsupportedTemplate_counterexample :
    (contentAt (buildWithDetect detectDefault c4Env ("T") [1, 7] [sampleSlide, sampleSlide]
        ("Arial") ("FFFFFF") none []) 1).map SlidePlan.background =
      some (.procedural 1) ∧
    resolveSlideBackground c4Env 1 1 = .ok (.staticImage ("asset1"), ("asset1")) ∧
    Background.procedural 1 ≠ .staticImage ("asset1") := by
  refine ⟨rfl, rfl, ?_⟩
  simp

/-- C4 amended: when a slide's effective template id (the referenced id, or
the first configured id when the template list is shorter than the slide
count) is present in neither the deck registry nor the static-raster
registry, the engine recovers by drawing the procedural theme for that slide
and emits a render plan without raising; in particular with template ids
`[7]`, id 7 absent, and 3 slides, the build emits exactly 3 render plans and
no exception. -/
theorem unsupportedTemplate_recovery :
    (∀ (detect : String → Rect × Rect) (env : BuildEnv) (topic : String)
      (templateTypes : List ℕ) (prepared : List String) (index : ℕ) (sc : SlideContent),
      env.deckReg (templateTypeFor templateTypes index) = none →
      env.rasterReg (templateTypeFor templateTypes index) = none →
      ∃ plan, composeSlide detect env topic templateTypes prepared index sc = .ok plan ∧
        plan.background = .procedural index) ∧
    (buildWithDetect detectDefault emptyBuildEnv ("T") [7]
      [sampleSlide, sampleSlide, sampleSlide] ("Arial") ("FFFFFF") none
      []).toOption.map List.length = some 3 := by
  constructor
  · intro detect env topic templateTypes prepared index sc hdeck hraster
    have hres : resolveSlideBackground env index (templateTypeFor templateTypes index) =
        .ok (.procedural index, "") := by
      unfold resolveSlideBackground
      rw [hdeck, hraster]
    refine ⟨_, by unfold composeSlide; rw [hres], ?_⟩
    simp
  · rfl

/-- Witness for the amended C4: template id 7 resolves in neither registry of
the empty environment and the composed slide draws the procedural theme. -/
theorem unsupportedTemplate_recovery_witness :
    emptyBuildEnv.deckReg (templateTypeFor [7] 0) = none ∧
    emptyBuildEnv.rasterReg (templateTypeFor [7] 0) = none ∧
    composeBackground? (composeSlide detectDefault emptyBuildEnv ("T") [7] [] 0 sampleSlide) =
      some (.procedural 0) := by
  refine ⟨rfl, rfl, ?_⟩
  obtain ⟨plan, hok, hbg⟩ := unsupportedTemplate_recovery.1 detectDefault emptyBuildEnv
    ("T") [7] [] 0 sampleSlide rfl rfl
  unfold composeBackground?
  rw [hok]
  simp [hbg]

/-! ## Claim C5: deck rasterization with the first-page skip rule -/

/-- C5: a deck with `p > 1` pages retains exactly `p - 1` rendered pages
(page 0 skipped); a one-page deck retains its single page; the retained list
is empty exactly for `p = 0`; against a deck background the slide resolution
fails with the empty-template error exactly when zero pages remain, and
otherwise slide `i` draws retained page `i mod (p - 1)` (document page
`i mod (p-1) + 1`) for `p > 1`, or document page 0 for `p = 1`; an empty deck
on the first slide aborts the whole build with the empty-template error. -/
theorem deckRasterizer_correct :
    (∀ p : ℕ, 1 < p → (renderPdfPages p).length = p - 1) ∧
    ((renderPdfPages 1).length = 1) ∧
    (∀ p : ℕ, renderPdfPages p = [] ↔ p = 0) ∧
    (∀ (env : BuildEnv) (i t : ℕ) (path : String),
      env.deckReg t = some path → env.fitzAvailable = true →
      (env.pdfPageCount path = 0 →
        resolveSlideBackground env i t = .error (.emptyTemplate path)) ∧
      (resolveSlideBackground env i t = .error (.emptyTemplate path) →
        env.pdfPageCount path = 0) ∧
      (env.pdfPageCount path = 1 →
        resolveSlideBackground env i t = .ok (.pdfPage (pageKey path 0), pageKey path 0)) ∧
      (∀ p, env.pdfPageCount path = p → 1 < p →
        resolveSlideBackground env i t =
          .ok (.pdfPage (pageKey path (i % (p - 1) + 1)),
            pageKey path (i % (p - 1) + 1)))) ∧
    (∀ (detect : String → Rect × Rect) (env : BuildEnv) (topic : String)
      (templateTypes : List ℕ) (s : SlideContent) (rest : List SlideContent)
      (fontName fontColor : String) (creatorNames : Option String)
      (userImagePaths : List String) (path : String),
      env.deckReg (templateTypeFor templateTypes 0) = some path →
      env.fitzAvailable = true → env.pdfPageCount path = 0 →
      (parseHexColor fontColor).isSome = true →
      buildWithDetect detect env topic templateTypes (s :: rest) fontName fontColor
        creatorNames userImagePaths = .error (.emptyTemplate path)) := by
  have hA : ∀ p : ℕ, 1 < p → (renderPdfPages p).length = p - 1 := by
    intro p hp
    unfold renderPdfPages
    rw [if_pos hp]
    simp
  have hC : ∀ p : ℕ, renderPdfPages p = [] ↔ p = 0 := by
    intro p
    constructor
    · intro h
      rcases p with _ | q
      · rfl
      · rcases q with _ | r
        · exact absurd h (by decide)
        · have hl := hA (r + 2) (by omega)
          rw [h] at hl
          simp at hl
    · intro h
      subst h
      rfl
  have hD : ∀ (env : BuildEnv) (i t : ℕ) (path : String),
      env.deckReg t = some path → env.fitzAvailable = true →
      (env.pdfPageCount path = 0 →
        resolveSlideBackground env i t = .error (.emptyTemplate path)) ∧
      (resolveSlideBackground env i t = .error (.emptyTemplate path) →
        env.pdfPageCount path = 0) ∧
      (env.pdfPageCount path = 1 →
        resolveSlideBackground env i t = .ok (.pdfPage (pageKey path 0), pageKey path 0)) ∧
      (∀ p, env.pdfPageCount path = p → 1 < p →
        resolveSlideBackground env i t =
          .ok (.pdfPage (pageKey path (i % (p - 1) + 1)),
            pageKey path (i % (p - 1) + 1))) := by
    intro env i t path hdeck hfitz
    unfold resolveSlideBackground
    simp only [hdeck, hfitz, if_true]
    refine ⟨?_, ?_, ?_, ?_⟩
    · intro h0
      rw [h0]
      rfl
    · intro herr
      by_contra hp
      have hne : (renderPdfPages (env.pdfPageCount path)).map (pageKey path) ≠ [] := by
        intro hh
        rw [List.map_eq_nil] at hh
        exact hp ((hC _).mp hh)
      rw [if_neg (fun hI => hne (List.isEmpty_iff.mp hI))] at herr
      simp at herr
    · intro h1
      rw [h1]
      have : renderPdfPages 1 = [0] := rfl
      rw [this]
      simp [List.getD, Nat.mod_one]
    · intro p hp h1p
      rw [hp]
      have hlen : ((List.range p).drop 1).length = p - 1 := by simp
      have hpages : renderPdfPages p = (List.range p).drop 1 := by
        unfold renderPdfPages
        rw [if_pos h1p]
      rw [hpages]
      have hne : ((List.range p).drop 1).map (pageKey path) ≠ [] := by
        intro hh
        rw [List.map_eq_nil] at hh
        have := congrArg List.length hh
        rw [hlen] at this
        simp at this
        omega
      rw [if_neg (fun hI => hne (List.isEmpty_iff.mp hI))]
      have hmod : i % (((List.range p).drop 1).map (pageKey path)).length = i % (p - 1) := by
        rw [List.length_map, hlen]
      rw [hmod]
      have hk : i % (p - 1) < p - 1 := Nat.mod_lt _ (by omega)
      have hget : (((List.range p).drop 1).map (pageKey path)).getD (i % (p - 1))
          (pageKey path 0) = pageKey path (i % (p - 1) + 1) := by
        rw [List.getD_eq_get?, List.get?_map, List.get?_drop,
          List.get?_range (by omega : 1 + i % (p - 1) < p)]
        simp [Nat.add_comm]
      rw [hget]
  refine ⟨hA, rfl, hC, hD, ?_⟩
  intro detect env topic templateTypes s rest fontName fontColor creatorNames
    userImagePaths path hdeck hfitz h0 hsome
  obtain ⟨c, hc⟩ := Option.isSome_iff_exists.mp hsome
  have hres : resolveSlideBackground env 0 (templateTypeFor templateTypes 0) =
      .error (.emptyTemplate path) :=
    ((hD env 0 (templateTypeFor templateTypes 0) path hdeck hfitz).1) h0
  unfold buildWithDetect
  rw [hc]
  simp only [buildSlidesFrom, composeSlide, hres]

/-- Witness for C5 at a three-page deck: two pages are retained, and slide
index 4 wraps to retained page `4 mod 2 = 0`, which is document page 1. -/
theorem deckRasterizer_correct_witness :
    c5Env.deckReg 5 = some ("deck5") ∧
    (renderPdfPages 3).length = 2 ∧
    resolveSlideBackground c5Env 4 5 =
      .ok (.pdfPage (pageKey ("deck5") 1), pageKey ("deck5") 1) := by
  refine ⟨rfl, deckRasterizer_correct.1 3 (by omega), ?_⟩
  have h := (deckRasterizer_correct.2.2.2.1 c5Env 4 5 ("deck5") rfl rfl).2.2.2 3 rfl
    (by omega)
  simpa using h

end PresentationBuilder
